import Mathlib

/-!
Verification of the Crypto_Arb_Bot configuration loader (`config/config.py`)
and credential resolver (`src/crypto_arb_bot/credentials.py`), shallowly
embedded in Lean 4.

Python dynamic values are modelled by `PyVal`; Python's `bool` is a subclass
of `int`, so `isinstance(x, int)` accepts booleans, which the model mirrors.
Python floats are modelled by `PyFloat`: a finite rational, an infinity, or
NaN — TOML parses the literals `inf`, `-inf` and `nan`, and the code compares
floats with zero, where IEEE semantics make every comparison with NaN false.
Raised exceptions are modelled with `Except` / explicit result
constructors.
-/

namespace CryptoArbBot

/-- A Python float: a finite value (as a rational), an infinity, or NaN.
TOML's float syntax covers all of these (`5.0`, `inf`, `-inf`, `nan`). -/
inductive PyFloat where
  | finite (q : ℚ)
  | inf
  | negInf
  | nan
deriving DecidableEq

/-- IEEE `x <= 0` (the raise-condition for `fetch_interval`,
config.py line 87): false for NaN, false for `inf`, true for `-inf`. -/
def PyFloat.leZero : PyFloat → Bool
  | .finite q => q ≤ 0
  | .inf => false
  | .negInf => true
  | .nan => false

/-- IEEE `x < 0` (the raise-condition for `min_spread`,
config.py line 89): false for NaN, false for `inf`, true for `-inf`. -/
def PyFloat.ltZero : PyFloat → Bool
  | .finite q => q < 0
  | .inf => false
  | .negInf => true
  | .nan => false

/-- IEEE `x > 0` — the documented bound for `fetch_interval`.  False for
NaN: NaN fails *both* `x <= 0` and `x > 0`. -/
def PyFloat.gtZero : PyFloat → Bool
  | .finite q => 0 < q
  | .inf => true
  | .negInf => false
  | .nan => false

/-- IEEE `x >= 0` — the documented bound for `min_spread`.  False for
NaN: NaN fails *both* `x < 0` and `x >= 0`. -/
def PyFloat.geZero : PyFloat → Bool
  | .finite q => 0 ≤ q
  | .inf => true
  | .negInf => false
  | .nan => false

/-- Python truthiness of a float: only `0.0` is falsy
(`bool(nan)` and `bool(inf)` are `True`). -/
def PyFloat.truthy : PyFloat → Bool
  | .finite q => q != 0
  | _ => true

/-- A dynamic Python value, as far as the two modules inspect one. -/
inductive PyVal where
  | vBool (b : Bool)
  | vInt (n : Int)
  | vFloat (f : PyFloat)
  | vStr (s : String)
  | vList (l : List PyVal)

/-- Python `isinstance(v, int)`: true for `int` and for `bool`
(a subclass of `int`). -/
def PyVal.isInstInt : PyVal → Bool
  | .vBool _ => true
  | .vInt _ => true
  | _ => false

/-- Python `isinstance(v, (int, float))`. -/
def PyVal.isInstNum : PyVal → Bool
  | .vBool _ => true
  | .vInt _ => true
  | .vFloat _ => true
  | _ => false

/-- The integer value of a value satisfying `isinstance(v, int)`
(`True == 1`, `False == 0` in Python). -/
def PyVal.intValue : PyVal → Int
  | .vBool b => if b then 1 else 0
  | .vInt n => n
  | _ => 0

/-- The float value of a value satisfying `isinstance(v, (int, float))`;
also models the `float()` coercion applied by `_validate_config`
(`float(True) == 1.0`, `float(n)` finite for any TOML-sized int). -/
def PyVal.numValue : PyVal → PyFloat
  | .vBool b => .finite (if b then 1 else 0)
  | .vInt n => .finite (n : ℚ)
  | .vFloat f => f
  | _ => .finite 0

/-- Python truthiness of a value. -/
def PyVal.truthy : PyVal → Bool
  | .vBool b => b
  | .vInt n => n != 0
  | .vFloat f => f.truthy
  | .vStr s => !s.isEmpty
  | .vList l => !l.isEmpty

/-- Python `dict.get(key)` on a mapping with string keys:
`none` models Python `None` for an absent key. -/
def dictGet (data : List (String × PyVal)) (key : String) : Option PyVal :=
  (data.find? (fun kv => kv.1 == key)).map (fun kv => kv.2)

/-- `CONFIG_PATH_ENV = "ARBBOT_CONFIG"` (config.py line 16). -/
def CONFIG_PATH_ENV : String := "ARBBOT_CONFIG"

/-- `DEFAULT_CONFIG_FILE = os.path.join(os.getcwd(), "config.toml")`
(config.py line 17), as a function of the current working directory. -/
def DEFAULT_CONFIG_FILE (cwd : String) : String := cwd ++ "/config.toml"

/-- The frozen `Config` dataclass (config.py lines 25-40).  Python does not
enforce the annotations, so `max_cycles` / `max_retries` store whatever
value passed validation (an `int` or a `bool`) and `market_pairs` stores the
list exactly as parsed, elements unchecked. -/
structure Config where
  market_pairs : List PyVal
  max_cycles : PyVal
  fetch_interval : PyFloat
  min_spread : PyFloat
  max_retries : PyVal

/-- What the file system holds at a path that is a regular file: a TOML
document that parses to a top-level mapping, or one that fails to parse. -/
inductive ParseResult where
  | ok (data : List (String × PyVal))
  | parseError (msg : String)

/-- `_read_config_file` (config.py lines 43-60).  `fs path = none` models
`not os.path.isfile(path)`; a `ConfigError` is modelled as `.error msg`. -/
def read_config_file (fs : String → Option ParseResult) (path : String) :
    Except String (List (String × PyVal)) :=
  match fs path with
  | none => .error ("Config file not found: " ++ path)
  | some (.parseError e) => .error ("Failed to parse config (" ++ path ++ "): " ++ e)
  | some (.ok data) => .ok data

/-- Passes `not (not isinstance(pairs, list) or not pairs)`
(config.py line 83): a present, non-empty list. -/
def checkMarketPairs : Option PyVal → Bool
  | some (.vList l) => !l.isEmpty
  | _ => false

/-- Passes `not (not isinstance(cycles, int) or not (1 <= cycles <= 10_000))`
(config.py line 85). -/
def checkMaxCycles : Option PyVal → Bool
  | some v => v.isInstInt && (1 ≤ v.intValue && v.intValue ≤ 10000)
  | none => false

/-- Passes `not (not isinstance(interval, (int, float)) or interval <= 0)`
(config.py line 87).  The raise-condition is `interval <= 0`, which NaN
fails (every IEEE comparison with NaN is false), so NaN passes this check
despite not being `> 0`. -/
def checkFetchInterval : Option PyVal → Bool
  | some v => v.isInstNum && !(v.numValue.leZero)
  | none => false

/-- Passes `not (not isinstance(spread, (int, float)) or spread < 0)`
(config.py line 89).  The raise-condition is `spread < 0`, which NaN fails,
so NaN passes this check despite not being `>= 0`. -/
def checkMinSpread : Option PyVal → Bool
  | some v => v.isInstNum && !(v.numValue.ltZero)
  | none => false

/-- Passes `not (not isinstance(retries, int) or not (1 <= retries <= 100))`
(config.py line 91). -/
def checkMaxRetries : Option PyVal → Bool
  | some v => v.isInstInt && (1 ≤ v.intValue && v.intValue ≤ 100)
  | none => false

/-- The list held by a value known to pass `checkMarketPairs`. -/
def asList : Option PyVal → List PyVal
  | some (.vList l) => l
  | _ => []

/-- The float value of an `Option PyVal`, for the `float()` coercions. -/
def optNumValue : Option PyVal → PyFloat
  | some v => v.numValue
  | none => .finite 0

/-- `_validate_config` (config.py lines 63-100): sequential checks, first
failure raising `ConfigError` (modelled as `.error` with the source's
message), else the frozen `Config` with `float()`-coerced interval/spread. -/
def validate_config (data : List (String × PyVal)) : Except String Config :=
  let pairs := dictGet data "market_pairs"
  let cycles := dictGet data "max_cycles"
  let interval := dictGet data "fetch_interval"
  let spread := dictGet data "min_spread"
  let retries := dictGet data "max_retries"
  if !checkMarketPairs pairs then
    .error "market_pairs must be a non-empty list"
  else if !checkMaxCycles cycles then
    .error "max_cycles must be an integer between 1 and 10000"
  else if !checkFetchInterval interval then
    .error "fetch_interval must be a positive number"
  else if !checkMinSpread spread then
    .error "min_spread must be >= 0"
  else if !checkMaxRetries retries then
    .error "max_retries must be an integer between 1 and 100"
  else
    .ok { market_pairs := asList pairs
          max_cycles := cycles.getD (.vInt 0)
          fetch_interval := optNumValue interval
          min_spread := optNumValue spread
          max_retries := retries.getD (.vInt 0) }

/-- The ambient process state `load_config` consults: the environment, the
current working directory, and the file system (`none` at a path models
"no regular file there"). -/
structure World where
  getenv : String → Option String
  cwd : String
  files : String → Option ParseResult

/-- Python's truthiness-based `a or b` for `a : Optional[str]`:
`None` and `""` are falsy. -/
def orTruthy (a : Option String) (b : String) : String :=
  match a with
  | some s => if s.isEmpty then b else s
  | none => b

/-- `cfg_path = path or os.getenv(CONFIG_PATH_ENV) or DEFAULT_CONFIG_FILE`
(config.py line 116). -/
def resolve_cfg_path (w : World) (path : Option String) : String :=
  orTruthy path (orTruthy (w.getenv CONFIG_PATH_ENV) (DEFAULT_CONFIG_FILE w.cwd))

/-- `load_config` (config.py lines 103-118): read the file at the resolved
path, propagating its `ConfigError`, then validate. -/
def load_config (w : World) (path : Option String) : Except String Config :=
  match read_config_file w.files (resolve_cfg_path w path) with
  | .error e => .error e
  | .ok raw => validate_config raw

/-- The five required configuration fields, in the order `_validate_config`
checks them. -/
inductive Field where
  | marketPairs
  | maxCycles
  | fetchInterval
  | minSpread
  | maxRetries
deriving DecidableEq, Fintype

/-- The TOML key of a required field. -/
def Field.key : Field → String
  | .marketPairs => "market_pairs"
  | .maxCycles => "max_cycles"
  | .fetchInterval => "fetch_interval"
  | .minSpread => "min_spread"
  | .maxRetries => "max_retries"

/-- Whether the field's value in `data` passes its validation check in
`_validate_config`. -/
def Field.valid (f : Field) (data : List (String × PyVal)) : Bool :=
  match f with
  | .marketPairs => checkMarketPairs (dictGet data "market_pairs")
  | .maxCycles => checkMaxCycles (dictGet data "max_cycles")
  | .fetchInterval => checkFetchInterval (dictGet data "fetch_interval")
  | .minSpread => checkMinSpread (dictGet data "min_spread")
  | .maxRetries => checkMaxRetries (dictGet data "max_retries")

/-- The `ConfigError` message `_validate_config` raises for the field. -/
def Field.errMsg : Field → String
  | .marketPairs => "market_pairs must be a non-empty list"
  | .maxCycles => "max_cycles must be an integer between 1 and 10000"
  | .fetchInterval => "fetch_interval must be a positive number"
  | .minSpread => "min_spread must be >= 0"
  | .maxRetries => "max_retries must be an integer between 1 and 100"

/-- Outcome of `get_api_key`: a returned key, a raised `CredentialError`,
or a raised `AssertionError` (a contract violation, kept distinct). -/
inductive CredResult where
  | ok (key : String)
  | credError (msg : String)
  | assertionError (msg : String)
deriving Repr, DecidableEq

/-- A single-quote character, for building the `CredentialError` message. -/
def squote : String := (Char.ofNat 39).toString

/-- Python's `str.upper()` on the service name (character-wise upper-casing;
service names are ASCII). -/
def strUpper (s : String) : String := String.mk (s.data.map Char.toUpper)

/-- The empty string is empty (evaluation fact used by the proofs below). -/
theorem empty_string_isEmpty : "".isEmpty = true := rfl

/-- `get_api_key` (credentials.py lines 32-71).  `kr ns name` models
`keyring.get_password(ns, name)` (typed `PyVal` so that a store returning a
non-string, which trips assertion 2, is representable); `env` models
`os.getenv`.  The argument is a `PyVal` so that assertion 1's type check is
representable. -/
def get_api_key (kr : String → String → Option PyVal)
    (env : String → Option String) (service_name : PyVal) : CredResult :=
  match service_name with
  | .vStr s =>
    if s.isEmpty then
      .assertionError "service_name must be a non-empty string"
    else
      let key : Option PyVal := kr "arbbot" s
      let key : Option PyVal :=
        if !(match key with | some v => v.truthy | none => false) then
          (env (strUpper s)).map .vStr
        else key
      match key with
      | some (.vStr k) =>
        if k.isEmpty then
          .credError ("API key for " ++ squote ++ s ++ squote ++
            " not found in keyring or environment")
        else .ok k
      | none =>
        .credError ("API key for " ++ squote ++ s ++ squote ++
          " not found in keyring or environment")
      | some _ => .assertionError "retrieved key must be a string or None"
  | _ => .assertionError "service_name must be a non-empty string"

/-! ## Claims -/

/-- A value satisfying the documented bound `> 0` is not caught by the
code's raise-condition `interval <= 0`. -/
theorem PyFloat.not_leZero_of_gtZero {x : PyFloat} (h : x.gtZero = true) :
    x.leZero = false := by
  cases x <;> simp_all [PyFloat.gtZero, PyFloat.leZero]

/-- A value satisfying the documented bound `>= 0` is not caught by the
code's raise-condition `spread < 0`. -/
theorem PyFloat.not_ltZero_of_geZero {x : PyFloat} (h : x.geZero = true) :
    x.ltZero = false := by
  cases x <;> simp_all [PyFloat.geZero, PyFloat.ltZero]

/-- C1: for every input mapping containing all five required fields with
values inside the documented bounds (market_pairs a non-empty list,
max_cycles an integer in [1,10000], fetch_interval a number > 0, min_spread
a number >= 0, max_retries an integer in [1,100]), `load` returns a
Configuration whose five fields exactly equal the input values, with
fetch_interval and min_spread coerced to floating-point. -/
theorem c1_load_returns_exact_valid_fields (w : World) (p : Option String)
    (data : List (String × PyVal)) (l : List PyVal) (c r : Int) (iv sp : PyVal)
    (hfile : w.files (resolve_cfg_path w p) = some (.ok data))
    (hpairs : dictGet data "market_pairs" = some (.vList l))
    (hne : l.isEmpty = false)
    (hcyc : dictGet data "max_cycles" = some (.vInt c))
    (hc1 : 1 ≤ c) (hc2 : c ≤ 10000)
    (hiv : dictGet data "fetch_interval" = some iv)
    (hivn : iv.isInstNum = true) (hivpos : iv.numValue.gtZero = true)
    (hsp : dictGet data "min_spread" = some sp)
    (hspn : sp.isInstNum = true) (hspnn : sp.numValue.geZero = true)
    (hret : dictGet data "max_retries" = some (.vInt r))
    (hr1 : 1 ≤ r) (hr2 : r ≤ 100) :
    load_config w p = .ok ⟨l, .vInt c, iv.numValue, sp.numValue, .vInt r⟩ := by
  have hread : read_config_file w.files (resolve_cfg_path w p) = .ok data := by
    unfold read_config_file
    rw [hfile]
  unfold load_config
  rw [hread]
  show validate_config data = _
  unfold validate_config
  rw [hpairs, hcyc, hiv, hsp, hret]
  have hivle := PyFloat.not_leZero_of_gtZero hivpos
  have hsplt := PyFloat.not_ltZero_of_geZero hspnn
  simp [checkMarketPairs, checkMaxCycles, checkFetchInterval, checkMinSpread,
    checkMaxRetries, asList, optNumValue, PyVal.isInstInt, PyVal.intValue,
    hne, hivn, hivle, hspn, hsplt, hc1, hc2, hr1, hr2]

/-- Witness for C1 at the spec's concrete scenario: market_pairs
["BTC-USD","ETH-USD"], max_cycles 100, fetch_interval 5.0, min_spread 0.002,
max_retries 3. -/
theorem c1_witness :
    load_config
      ⟨fun _ => none, "/bot",
       fun q => if q = "/bot/config.toml" then
         some (.ok [("market_pairs", .vList [.vStr "BTC-USD", .vStr "ETH-USD"]),
                    ("max_cycles", .vInt 100),
                    ("fetch_interval", .vFloat (.finite 5)),
                    ("min_spread", .vFloat (.finite (mkRat 2 1000))),
                    ("max_retries", .vInt 3)])
         else none⟩
      none
      = .ok ⟨[.vStr "BTC-USD", .vStr "ETH-USD"], .vInt 100, .finite 5,
          .finite (mkRat 2 1000), .vInt 3⟩ := by
  have h := c1_load_returns_exact_valid_fields
    ⟨fun _ => none, "/bot",
     fun q => if q = "/bot/config.toml" then
       some (.ok [("market_pairs", .vList [.vStr "BTC-USD", .vStr "ETH-USD"]),
                  ("max_cycles", .vInt 100),
                  ("fetch_interval", .vFloat (.finite 5)),
                  ("min_spread", .vFloat (.finite (mkRat 2 1000))),
                  ("max_retries", .vInt 3)])
       else none⟩
    none
    [("market_pairs", .vList [.vStr "BTC-USD", .vStr "ETH-USD"]),
     ("max_cycles", .vInt 100),
     ("fetch_interval", .vFloat (.finite 5)),
     ("min_spread", .vFloat (.finite (mkRat 2 1000))),
     ("max_retries", .vInt 3)]
    [.vStr "BTC-USD", .vStr "ETH-USD"] 100 3 (.vFloat (.finite 5)) (.vFloat (.finite (mkRat 2 1000)))
    (by rfl) (by rfl) (by rfl) (by rfl) (by decide) (by decide)
    (by rfl) (by rfl) (by decide) (by rfl) (by rfl) (by decide)
    (by rfl) (by decide) (by decide)
  exact h

/-- C2 (amended): for every input mapping in which exactly one of the five
required fields is missing or fails its validation check (the other four
passing), `load` raises `ConfigError` — and no other recoverable error
kind — with a message that names that field.  The checks enforce the
documented type and range constraints except at NaN, which passes the
`fetch_interval` and `min_spread` range checks because every IEEE
comparison with NaN is false (see `c2_nan_counterexample`). -/
theorem c2_single_invalid_field_named (w : World) (p : Option String)
    (data : List (String × PyVal)) (f : Field)
    (hfile : w.files (resolve_cfg_path w p) = some (.ok data))
    (hbad : f.valid data = false)
    (hrest : ∀ g : Field, g ≠ f → g.valid data = true) :
    ∃ suffix, load_config w p = .error (f.key ++ suffix) := by
  have hread : read_config_file w.files (resolve_cfg_path w p) = .ok data := by
    unfold read_config_file
    rw [hfile]
  unfold load_config
  rw [hread]
  show ∃ suffix, validate_config data = Except.error (Field.key f ++ suffix)
  unfold validate_config
  cases f with
  | marketPairs =>
    simp only [Field.valid] at hbad
    refine ⟨" must be a non-empty list", ?_⟩
    simp [hbad]
    rfl
  | maxCycles =>
    have h1 := hrest .marketPairs (by decide)
    simp only [Field.valid] at hbad h1
    refine ⟨" must be an integer between 1 and 10000", ?_⟩
    simp [hbad, h1]
    rfl
  | fetchInterval =>
    have h1 := hrest .marketPairs (by decide)
    have h2 := hrest .maxCycles (by decide)
    simp only [Field.valid] at hbad h1 h2
    refine ⟨" must be a positive number", ?_⟩
    simp [hbad, h1, h2]
    rfl
  | minSpread =>
    have h1 := hrest .marketPairs (by decide)
    have h2 := hrest .maxCycles (by decide)
    have h3 := hrest .fetchInterval (by decide)
    simp only [Field.valid] at hbad h1 h2 h3
    refine ⟨" must be >= 0", ?_⟩
    simp [hbad, h1, h2, h3]
    rfl
  | maxRetries =>
    have h1 := hrest .marketPairs (by decide)
    have h2 := hrest .maxCycles (by decide)
    have h3 := hrest .fetchInterval (by decide)
    have h4 := hrest .minSpread (by decide)
    simp only [Field.valid] at hbad h1 h2 h3 h4
    refine ⟨" must be an integer between 1 and 100", ?_⟩
    simp [hbad, h1, h2, h3, h4]
    rfl

/-- Witness for C2 at the spec's concrete scenario: `max_cycles = 0`, all
other fields valid, fails with a `ConfigError` naming `max_cycles`. -/
theorem c2_witness :
    ∃ suffix,
      load_config
        ⟨fun _ => none, "/bot",
         fun q => if q = "/bot/config.toml" then
           some (.ok [("market_pairs", .vList [.vStr "BTC-USD"]),
                      ("max_cycles", .vInt 0),
                      ("fetch_interval", .vFloat (.finite 5)),
                      ("min_spread", .vFloat (.finite 0)),
                      ("max_retries", .vInt 3)])
           else none⟩
        none
        = .error (Field.key .maxCycles ++ suffix) :=
  c2_single_invalid_field_named
    ⟨fun _ => none, "/bot",
     fun q => if q = "/bot/config.toml" then
       some (.ok [("market_pairs", .vList [.vStr "BTC-USD"]),
                  ("max_cycles", .vInt 0),
                  ("fetch_interval", .vFloat (.finite 5)),
                  ("min_spread", .vFloat (.finite 0)),
                  ("max_retries", .vInt 3)])
       else none⟩
    none
    [("market_pairs", .vList [.vStr "BTC-USD"]),
     ("max_cycles", .vInt 0),
     ("fetch_interval", .vFloat (.finite 5)),
     ("min_spread", .vFloat (.finite 0)),
     ("max_retries", .vInt 3)]
    .maxCycles (by rfl) (by rfl)
    (by intro g hg; cases g <;> first | rfl | exact absurd rfl hg)

/-- Counterexample to C2 as originally stated: `fetch_interval = nan`
violates its documented range constraint (NaN is not `> 0`) while all other
fields are valid, yet `load` succeeds instead of raising `ConfigError`,
because the code's raise-condition `interval <= 0` is false at NaN. -/
theorem c2_nan_counterexample :
    PyFloat.nan.gtZero = false
    ∧ load_config
      ⟨fun _ => none, "/bot",
       fun q => if q = "/bot/config.toml" then
         some (.ok [("market_pairs", .vList [.vStr "BTC-USD"]),
                    ("max_cycles", .vInt 100),
                    ("fetch_interval", .vFloat .nan),
                    ("min_spread", .vFloat (.finite 0)),
                    ("max_retries", .vInt 3)])
         else none⟩
      none
      = .ok ⟨[.vStr "BTC-USD"], .vInt 100, .nan, .finite 0, .vInt 3⟩ :=
  ⟨rfl, rfl⟩

/-- C5: `load` resolves the configuration file path by first-match
precedence — explicit argument, then the `ARBBOT_CONFIG` environment
variable, then `<cwd>/config.toml` — and the file it reads is the one at the
resolved path. -/
theorem c5_path_resolution_precedence :
    (∀ (w : World) (s : String), s.isEmpty = false →
      resolve_cfg_path w (some s) = s)
    ∧ (∀ (w : World) (e : String), w.getenv CONFIG_PATH_ENV = some e →
      e.isEmpty = false → resolve_cfg_path w none = e)
    ∧ (∀ (w : World), w.getenv CONFIG_PATH_ENV = none →
      resolve_cfg_path w none = DEFAULT_CONFIG_FILE w.cwd)
    ∧ (∀ (w : World) (p : Option String) (data : List (String × PyVal)),
      w.files (resolve_cfg_path w p) = some (.ok data) →
      load_config w p = validate_config data) := by
  refine ⟨?_, ?_, ?_, ?_⟩
  · intro w s hs
    simp [resolve_cfg_path, orTruthy, hs]
  · intro w e he hne
    simp [resolve_cfg_path, orTruthy, he, hne]
  · intro w he
    simp [resolve_cfg_path, orTruthy, he]
  · intro w p data hfile
    unfold load_config read_config_file
    rw [hfile]

/-- Witness for C5: a world with distinct files at all three tiers; the
explicit argument wins, the environment value wins when no argument is
given, and the default is used when neither is present. -/
theorem c5_witness :
    resolve_cfg_path
      ⟨fun v => if v = "ARBBOT_CONFIG" then some "/env.toml" else none, "/bot",
       fun _ => none⟩ (some "/arg.toml") = "/arg.toml"
    ∧ resolve_cfg_path
      ⟨fun v => if v = "ARBBOT_CONFIG" then some "/env.toml" else none, "/bot",
       fun _ => none⟩ none = "/env.toml"
    ∧ resolve_cfg_path ⟨fun _ => none, "/bot", fun _ => none⟩ none
      = DEFAULT_CONFIG_FILE "/bot"
    ∧ load_config
      ⟨fun _ => none, "/bot",
       fun q => if q = "/bot/config.toml" then some (.ok []) else none⟩ none
      = validate_config [] := by
  refine ⟨?_, ?_, ?_, ?_⟩
  · exact c5_path_resolution_precedence.1 _ "/arg.toml" (by rfl)
  · exact c5_path_resolution_precedence.2.1 _ "/env.toml" (by rfl) (by rfl)
  · exact c5_path_resolution_precedence.2.2.1 ⟨fun _ => none, "/bot", fun _ => none⟩
      (by rfl)
  · exact c5_path_resolution_precedence.2.2.2 _ none [] (by rfl)

/-- `checkMarketPairs` guarantees the stored list is non-empty. -/
theorem checkMarketPairs_asList {v : Option PyVal}
    (h : checkMarketPairs v = true) : (asList v).isEmpty = false := by
  cases v with
  | none => simp [checkMarketPairs] at h
  | some x => cases x <;> simp_all [checkMarketPairs, asList]

/-- `checkMaxCycles` guarantees the stored value is an `int` instance
within [1, 10000]. -/
theorem checkMaxCycles_getD {v : Option PyVal} (h : checkMaxCycles v = true) :
    (v.getD (.vInt 0)).isInstInt = true ∧ 1 ≤ (v.getD (.vInt 0)).intValue ∧
      (v.getD (.vInt 0)).intValue ≤ 10000 := by
  cases v with
  | none => simp [checkMaxCycles] at h
  | some x => simp_all [checkMaxCycles, Option.getD]

/-- `checkMaxRetries` guarantees the stored value is an `int` instance
within [1, 100]. -/
theorem checkMaxRetries_getD {v : Option PyVal} (h : checkMaxRetries v = true) :
    (v.getD (.vInt 0)).isInstInt = true ∧ 1 ≤ (v.getD (.vInt 0)).intValue ∧
      (v.getD (.vInt 0)).intValue ≤ 100 := by
  cases v with
  | none => simp [checkMaxRetries] at h
  | some x => simp_all [checkMaxRetries, Option.getD]

/-- `checkFetchInterval` guarantees only that the stored value is not
`<= 0`: it is `> 0` or NaN (NaN fails both comparisons). -/
theorem checkFetchInterval_not_leZero {v : Option PyVal}
    (h : checkFetchInterval v = true) : (optNumValue v).leZero = false := by
  cases v with
  | none => simp [checkFetchInterval] at h
  | some x => simp_all [checkFetchInterval, optNumValue]

/-- `checkMinSpread` guarantees only that the stored value is not `< 0`:
it is `>= 0` or NaN (NaN fails both comparisons). -/
theorem checkMinSpread_not_ltZero {v : Option PyVal}
    (h : checkMinSpread v = true) : (optNumValue v).ltZero = false := by
  cases v with
  | none => simp [checkMinSpread] at h
  | some x => simp_all [checkMinSpread, optNumValue]

/-- C6 (amended): whenever `load` returns a Configuration, market_pairs is
non-empty, max_cycles lies in [1,10000] and max_retries in [1,100];
fetch_interval is not `<= 0` and min_spread is not `< 0` — that is, each is
within its documented bound (`> 0` resp. `>= 0`) or NaN, which the code's
checks cannot reject because every IEEE comparison with NaN is false (see
`c6_nan_counterexample`). -/
theorem c6_returned_config_in_bounds (w : World) (p : Option String)
    (cfg : Config) (h : load_config w p = .ok cfg) :
    cfg.market_pairs.isEmpty = false
    ∧ (cfg.max_cycles.isInstInt = true ∧ 1 ≤ cfg.max_cycles.intValue ∧
        cfg.max_cycles.intValue ≤ 10000)
    ∧ cfg.fetch_interval.leZero = false
    ∧ cfg.min_spread.ltZero = false
    ∧ (cfg.max_retries.isInstInt = true ∧ 1 ≤ cfg.max_retries.intValue ∧
        cfg.max_retries.intValue ≤ 100) := by
  unfold load_config at h
  split at h
  · exact absurd h (by simp)
  · next raw heq =>
    unfold validate_config at h
    by_cases h1 : checkMarketPairs (dictGet raw "market_pairs")
    swap
    · simp [h1] at h
    by_cases h2 : checkMaxCycles (dictGet raw "max_cycles")
    swap
    · simp [h1, h2] at h
    by_cases h3 : checkFetchInterval (dictGet raw "fetch_interval")
    swap
    · simp [h1, h2, h3] at h
    by_cases h4 : checkMinSpread (dictGet raw "min_spread")
    swap
    · simp [h1, h2, h3, h4] at h
    by_cases h5 : checkMaxRetries (dictGet raw "max_retries")
    swap
    · simp [h1, h2, h3, h4, h5] at h
    simp only [h1, h2, h3, h4, h5, Bool.not_true, if_false, Bool.false_eq_true,
      Except.ok.injEq] at h
    subst h
    exact ⟨checkMarketPairs_asList h1, checkMaxCycles_getD h2,
      checkFetchInterval_not_leZero h3, checkMinSpread_not_ltZero h4,
      checkMaxRetries_getD h5⟩

/-- Witness for C6 at a concrete world whose config file holds valid
values. -/
theorem c6_witness :
    ([PyVal.vStr "BTC-USD"].isEmpty = false)
    ∧ ((PyVal.vInt 100).isInstInt = true ∧ 1 ≤ (PyVal.vInt 100).intValue ∧
        (PyVal.vInt 100).intValue ≤ 10000)
    ∧ (PyVal.vFloat (.finite 5)).numValue.leZero = false
    ∧ (PyVal.vFloat (.finite 0)).numValue.ltZero = false
    ∧ ((PyVal.vInt 3).isInstInt = true ∧ 1 ≤ (PyVal.vInt 3).intValue ∧
        (PyVal.vInt 3).intValue ≤ 100) :=
  c6_returned_config_in_bounds
    ⟨fun _ => none, "/bot",
     fun q => if q = "/bot/config.toml" then
       some (.ok [("market_pairs", .vList [.vStr "BTC-USD"]),
                  ("max_cycles", .vInt 100),
                  ("fetch_interval", .vFloat (.finite 5)),
                  ("min_spread", .vFloat (.finite 0)),
                  ("max_retries", .vInt 3)])
       else none⟩
    none
    ⟨[.vStr "BTC-USD"], .vInt 100, (PyVal.vFloat (.finite 5)).numValue,
      (PyVal.vFloat (.finite 0)).numValue, .vInt 3⟩
    (by rfl)

/-- Counterexample to C6 as originally stated: a config file with
`min_spread = nan` (all other fields valid) makes `load` return a
Configuration whose `min_spread` is *not* within its documented bound
(NaN is not `>= 0`), because the code's raise-condition `spread < 0` is
false at NaN. -/
theorem c6_nan_counterexample :
    PyFloat.nan.geZero = false
    ∧ load_config
      ⟨fun _ => none, "/bot",
       fun q => if q = "/bot/config.toml" then
         some (.ok [("market_pairs", .vList [.vStr "BTC-USD"]),
                    ("max_cycles", .vInt 100),
                    ("fetch_interval", .vFloat (.finite 5)),
                    ("min_spread", .vFloat .nan),
                    ("max_retries", .vInt 3)])
         else none⟩
      none
      = .ok ⟨[.vStr "BTC-USD"], .vInt 100, .finite 5, .nan, .vInt 3⟩ :=
  ⟨rfl, rfl⟩

/-- C8: when the resolved path does not reference an existing regular file,
`load` fails with `ConfigError` signaling "file not found", the resolved
path included in the message. -/
theorem c8_missing_file_error (w : World) (p : Option String)
    (h : w.files (resolve_cfg_path w p) = none) :
    load_config w p = .error ("Config file not found: " ++ resolve_cfg_path w p) := by
  unfold load_config read_config_file
  rw [h]

/-- Witness for C8: an empty file system. -/
theorem c8_witness :
    load_config ⟨fun _ => none, "/bot", fun _ => none⟩ (some "/missing.toml")
      = .error ("Config file not found: " ++
          resolve_cfg_path ⟨fun _ => none, "/bot", fun _ => none⟩
            (some "/missing.toml")) :=
  c8_missing_file_error ⟨fun _ => none, "/bot", fun _ => none⟩
    (some "/missing.toml") (by rfl)

/-- C9: an empty-string explicit path argument is falsy under Python's `or`,
so resolution falls through to `ARBBOT_CONFIG` and then the default; an
empty-string `ARBBOT_CONFIG` likewise falls through to the default path. -/
theorem c9_empty_string_falls_through :
    (∀ (w : World), resolve_cfg_path w (some "") = resolve_cfg_path w none)
    ∧ (∀ (w : World), w.getenv CONFIG_PATH_ENV = some "" →
      resolve_cfg_path w (some "") = DEFAULT_CONFIG_FILE w.cwd) := by
  constructor
  · intro w
    rfl
  · intro w he
    unfold resolve_cfg_path
    rw [he]
    rfl

/-- Witness for C9: with `ARBBOT_CONFIG=""` and an empty-string argument,
the default path is resolved. -/
theorem c9_witness :
    resolve_cfg_path
      ⟨fun v => if v = "ARBBOT_CONFIG" then some "" else none, "/bot",
       fun _ => none⟩ (some "")
      = DEFAULT_CONFIG_FILE "/bot" :=
  c9_empty_string_falls_through.2
    ⟨fun v => if v = "ARBBOT_CONFIG" then some "" else none, "/bot",
     fun _ => none⟩ (by rfl)

/-- C10: the strict-integer check accepts Python booleans (`bool` is a
subclass of `int`): with `max_cycles` the boolean `True` and all other
fields valid, `load` succeeds and the stored `max_cycles` compares equal to
1 (`True == 1` in Python). -/
theorem c10_bool_passes_int_check :
    load_config
      ⟨fun _ => none, "/bot",
       fun q => if q = "/bot/config.toml" then
         some (.ok [("market_pairs", .vList [.vStr "BTC-USD"]),
                    ("max_cycles", .vBool true),
                    ("fetch_interval", .vFloat (.finite 5)),
                    ("min_spread", .vFloat (.finite 0)),
                    ("max_retries", .vInt 3)])
         else none⟩
      none
      = .ok ⟨[.vStr "BTC-USD"], .vBool true, .finite 5, .finite 0, .vInt 3⟩
    ∧ (PyVal.vBool true).intValue = 1 := by
  exact ⟨by rfl, by rfl⟩

/-- C3: for a non-empty service name, `get_api_key` returns the secret-store
value under ("arbbot", service_name) whenever it is a non-empty string,
unaffected by the environment (the environment is universally quantified and
absent from the conclusion); when the store yields no non-empty string, it
returns the environment variable named by the upper-cased service name
whenever that is non-empty; and every returned key is non-empty. -/
theorem c3_lookup_precedence :
    (∀ (kr : String → String → Option PyVal) (env : String → Option String)
        (s k : String), s.isEmpty = false →
      kr "arbbot" s = some (.vStr k) → k.isEmpty = false →
      get_api_key kr env (.vStr s) = .ok k)
    ∧ (∀ (kr : String → String → Option PyVal) (env : String → Option String)
        (s e : String), s.isEmpty = false →
      (kr "arbbot" s = none ∨ kr "arbbot" s = some (.vStr "")) →
      env (strUpper s) = some e → e.isEmpty = false →
      get_api_key kr env (.vStr s) = .ok e)
    ∧ (∀ (kr : String → String → Option PyVal) (env : String → Option String)
        (v : PyVal) (k : String),
      get_api_key kr env v = .ok k → k.isEmpty = false) := by
  refine ⟨?_, ?_, ?_⟩
  · intro kr env s k hs hkr hk
    simp [get_api_key, hs, hkr, hk, PyVal.truthy]
  · intro kr env s e hs hkr henv he
    rcases hkr with h | h <;>
      simp [get_api_key, hs, h, henv, he, PyVal.truthy, empty_string_isEmpty]
  · intro kr env v k h
    unfold get_api_key at h
    cases v <;> simp_all
    next s =>
    by_cases hs : s.isEmpty <;> simp [hs] at h
    split at h <;> simp_all
    split at h <;> simp_all

/-- Witness for C3: (store hit, store miss with environment hit, non-empty
return) at concrete stores and environments. -/
theorem c3_witness :
    get_api_key (fun ns n => if ns = "arbbot" ∧ n = "kraken" then
        some (.vStr "sk-store") else none)
      (fun v => if v = "KRAKEN" then some "sk-env" else none)
      (.vStr "kraken") = .ok "sk-store"
    ∧ get_api_key (fun _ _ => none)
      (fun v => if v = "KRAKEN" then some "sk-env" else none)
      (.vStr "kraken") = .ok "sk-env"
    ∧ ("sk-store").isEmpty = false := by
  refine ⟨?_, ?_, ?_⟩
  · exact c3_lookup_precedence.1 _ _ "kraken" "sk-store" (by rfl) (by rfl) (by rfl)
  · exact c3_lookup_precedence.2.1 _ _ "kraken" "sk-env" (by rfl) (Or.inl (by rfl))
      (by rfl) (by rfl)
  · exact c3_lookup_precedence.2.2
      (fun ns n => if ns = "arbbot" ∧ n = "kraken" then some (.vStr "sk-store")
        else none)
      (fun v => if v = "KRAKEN" then some "sk-env" else none)
      (.vStr "kraken") "sk-store"
      (c3_lookup_precedence.1 _ _ "kraken" "sk-store" (by rfl) (by rfl) (by rfl))

/-- C4: for a non-empty service name absent (as a non-empty string) from
both the secret store and the environment, `get_api_key` raises
`CredentialError` whose message contains the service name. -/
theorem c4_both_sources_empty (kr : String → String → Option PyVal)
    (env : String → Option String) (s : String) (hs : s.isEmpty = false)
    (hkr : kr "arbbot" s = none ∨ kr "arbbot" s = some (.vStr ""))
    (henv : env (strUpper s) = none ∨ env (strUpper s) = some "") :
    get_api_key kr env (.vStr s)
      = .credError ("API key for " ++ squote ++ s ++ squote ++
          " not found in keyring or environment") := by
  rcases hkr with h | h <;> rcases henv with h2 | h2 <;>
    simp [get_api_key, hs, h, h2, PyVal.truthy, empty_string_isEmpty]

/-- Witness for C4 at the spec's concrete scenario: no store entry for
"kraken" and `KRAKEN` unset. -/
theorem c4_witness :
    get_api_key (fun _ _ => none) (fun _ => none) (.vStr "kraken")
      = .credError ("API key for " ++ squote ++ "kraken" ++ squote ++
          " not found in keyring or environment") :=
  c4_both_sources_empty (fun _ _ => none) (fun _ => none) "kraken"
    (by rfl) (Or.inl (by rfl)) (Or.inl (by rfl))

/-- C7: for every argument that is not a non-empty string, `get_api_key`
fails with the assertion failure of assertion 1, for every store and
environment (so before and independent of any lookup), and in particular
never with `CredentialError`. -/
theorem c7_invalid_argument_asserts (kr : String → String → Option PyVal)
    (env : String → Option String) (v : PyVal)
    (hv : ∀ s : String, v = .vStr s → s.isEmpty = true) :
    get_api_key kr env v = .assertionError "service_name must be a non-empty string" := by
  unfold get_api_key
  cases v with
  | vStr s =>
    have := hv s rfl
    simp [this]
  | vBool b => rfl
  | vInt n => rfl
  | vFloat q => rfl
  | vList l => rfl

/-- Witness for C7: the empty string and a non-string argument both trip
assertion 1, regardless of well-stocked store and environment. -/
theorem c7_witness :
    get_api_key (fun _ _ => some (.vStr "sk")) (fun _ => some "sk") (.vStr "")
      = .assertionError "service_name must be a non-empty string"
    ∧ get_api_key (fun _ _ => some (.vStr "sk")) (fun _ => some "sk") (.vInt 7)
      = .assertionError "service_name must be a non-empty string" :=
  ⟨c7_invalid_argument_asserts _ _ (.vStr "") (fun _ h => by cases h; rfl),
   c7_invalid_argument_asserts _ _ (.vInt 7) (fun _ h => by cases h)⟩

end CryptoArbBot
